import Mathlib

/-!
Shallow embedding of `src/e3/testsuite/testcase_finder.py` (e3-testsuite).

The module defines:
  * `ParsedTest` — a record of basic information to instantiate a test driver;
  * `ProbingError` — the exception raised when a probed directory is
    structurally a candidate but malformed;
  * `YAMLTestFinder.probe` — discovery based on a `test.yaml` marker file;
  * `AdaCoreLegacyTestFinder.probe` — discovery based on a ticket-number
    directory-name convention (`re.compile("[0-9A-Z]\x7b2\x7d[0-9]\x7b2\x7d-[A-Z0-9]\x7b3\x7d")`,
    prefix-match semantics).

Modelling choices:
  * Python exceptions become an explicit result type `ProbeResult`: a probe
    either declines (`None` in Python), returns one `ParsedTest`, returns a
    list of them (the `TestFinderResult` union admits lists), or raises a
    `ProbingError`.
  * YAML values are modelled by the inductive `YVal`; `YVal.ynull` plays the
    role of Python `None` (an empty or comment-only file loads to `None`, a
    YAML `null` value likewise loads to `None`). Mapping keys are modelled as
    strings, which covers every key the finder itself ever inspects.
  * The external loader `e3.yaml.load_with_config` is an opaque service: the
    embedded `probe` takes its outcome on the file `dirpath/test.yaml` as an
    explicit `Except YamlError YVal` argument. `e3.yaml.YamlError` is opaque.
  * `testsuite` is modelled by the two capabilities the finder consumes: the
    naming function `test_name` and the registry `test_driver_map`, an
    association list with first-match lookup (Python dict keys are unique, so
    first-match agrees with dict lookup). `test_driver_map[driver_name]` with
    a string key absent from the registry raises `KeyError`, modelled as a
    `none` lookup; a non-string, non-null `driver` value never equals a
    string registry key, so its lookup is also `none`.
  * Driver classes are opaque: a type parameter `δ`.
  * `os.path.basename` follows POSIX: the suffix after the last `/`.
-/

/-- YAML values as loaded by the external loader. `ynull` doubles as Python
`None`; `yscalar` covers non-null scalar leaves other than strings used as
driver names, which are `ystr`. -/
inductive YVal where
  | ynull
  | ystr (s : String)
  | yscalar (s : String)
  | yseq (items : List YVal)
  | ymap (entries : List (String × YVal))
deriving Repr

/-- Opaque stand-in for the structured error `e3.yaml.YamlError` raised by the
external loader on malformed input. -/
structure YamlError where

/-- `class ProbingError(Exception)`: raised in `TestFinder.probe` when a test
is misformatted. -/
structure ProbingError where
  message : String
deriving Repr

/-- The two capabilities of `TestsuiteCore` that the finders consume:
`test_name(dirpath)` and the driver registry `test_driver_map`. -/
structure Testsuite (δ : Type) where
  test_name : String → String
  test_driver_map : List (String × δ)

/-- `class ParsedTest`: basic information to instantiate a test driver. The
constructor stores each argument verbatim; `test_matcher` defaults to
`None`. -/
structure ParsedTest (δ : Type) where
  test_name : String
  driver_cls : Option δ
  test_env : List (String × YVal)
  test_dir : String
  test_matcher : Option String := none
deriving Repr

/-- Result of one `probe` call: the Python signature is
`Union[Optional[ParsedTest], List[ParsedTest]]`, and the body may in addition
raise `ProbingError`. -/
inductive ProbeResult (δ : Type) where
  | declined
  | found (t : ParsedTest δ)
  | foundMany (ts : List (ParsedTest δ))
  | error (e : ProbingError)
deriving Repr

/-- Python `test_env.get("driver")`: `dict.get` returns `None` when the key is
absent, and the stored value otherwise (which is itself Python `None` when the
YAML value was `null`). Both roads to Python `None` land on `YVal.ynull`. -/
def dict_get (entries : List (String × YVal)) (key : String) : YVal :=
  match entries.lookup key with
  | none => .ynull
  | some v => v

/-- Python `testsuite.test_driver_map[driver_name]`: `some` on a hit, `none`
for the `KeyError` road. A non-string `driver_name` never equals a string
registry key. -/
def driverLookup (registry : List (String × δ)) : YVal → Option δ
  | .ystr s => registry.lookup s
  | _ => none

namespace YAMLTestFinder

/-- Tail of `YAMLTestFinder.probe` once `test_env` has been normalized to a
mapping: interpret the reserved `driver` key and build the `ParsedTest`. -/
def probeEnv (testsuite : Testsuite δ) (test_name : String) (dirpath : String)
    (test_env : List (String × YVal)) : ProbeResult δ :=
  match dict_get test_env "driver" with
  | .ynull => .found ⟨test_name, none, test_env, dirpath, none⟩
  | driver_name =>
    match driverLookup testsuite.test_driver_map driver_name with
    | none => .error ⟨"cannot find driver"⟩
    | some driver_cls => .found ⟨test_name, some driver_cls, test_env, dirpath, none⟩

/-- `YAMLTestFinder.probe(testsuite, dirpath, dirnames, filenames)`.
`load_with_config` is the outcome of the external call
`e3.yaml.load_with_config(os.path.join(dirpath, "test.yaml"), Env().to_dict())`,
consulted only on the road where `test.yaml` is present. -/
def probe (testsuite : Testsuite δ) (dirpath : String)
    (dirnames filenames : List String)
    (load_with_config : Except YamlError YVal) : ProbeResult δ :=
  if "test.yaml" ∉ filenames then .declined
  else
    let test_name := testsuite.test_name dirpath
    match load_with_config with
    | .error _ => .error ⟨"invalid syntax for test.yaml"⟩
    | .ok loaded =>
      match loaded with
      | .ynull => probeEnv testsuite test_name dirpath []
      | .ymap entries => probeEnv testsuite test_name dirpath entries
      | _ => .error ⟨"invalid format for test.yaml"⟩

end YAMLTestFinder

namespace AdaCoreLegacyTestFinder

/-- Character class `[0-9A-Z]` (identical to `[A-Z0-9]`) of the compiled
pattern `TN_RE`. -/
def tnClass (c : Char) : Bool :=
  decide (('0' ≤ c ∧ c ≤ '9') ∨ ('A' ≤ c ∧ c ≤ 'Z'))

/-- Character class `[0-9]` of the compiled pattern `TN_RE`. -/
def digitClass (c : Char) : Bool :=
  decide ('0' ≤ c ∧ c ≤ '9')

/-- `TN_RE.match(s)` as a Boolean: the pattern
`[0-9A-Z]\x7b2\x7d[0-9]\x7b2\x7d-[A-Z0-9]\x7b3\x7d` anchored at the start of the string
(`re.match` semantics: trailing characters are tolerated). -/
def tnMatchList : List Char → Bool
  | a :: b :: c :: d :: e :: f :: g :: h :: _ =>
    tnClass a && tnClass b && digitClass c && digitClass d && (e == '-') &&
      tnClass f && tnClass g && tnClass h
  | _ => false

/-- `TN_RE.match` applied to a string. -/
def tnMatch (s : String) : Bool := tnMatchList s.data

/-- POSIX `os.path.basename`: the part of the path after the last slash (the
whole path when it has no slash). -/
def basename (p : String) : String :=
  String.mk ((p.data.reverse.takeWhile (fun c => c != '/')).reverse)

/-- `AdaCoreLegacyTestFinder.probe(testsuite, dirpath, dirnames, filenames)`
for a finder constructed with the fixed driver class `driver_cls`. -/
def probe (driver_cls : δ) (testsuite : Testsuite δ) (dirpath : String)
    (dirnames filenames : List String) : ProbeResult δ :=
  let dirname := basename dirpath
  if !(tnMatch dirname) then .declined
  else .found ⟨dirname, some driver_cls, [], dirpath, none⟩

end AdaCoreLegacyTestFinder

/-- Spec-side character class of the ticket-number convention: an uppercase
letter or a digit. -/
def upperOrDigitChar (c : Char) : Prop :=
  ('0' ≤ c ∧ c ≤ '9') ∨ ('A' ≤ c ∧ c ≤ 'Z')

/-- Spec-side character class: a digit. -/
def digitChar (c : Char) : Prop := '0' ≤ c ∧ c ≤ '9'

/-- Spec-side reading of the ticket-number convention on a character list:
two uppercase-letter-or-digit characters, two digits, a hyphen, three
uppercase-letter-or-digit characters, then arbitrary trailing characters. -/
def ticketNumberStart (l : List Char) : Prop :=
  ∃ a b c d f g h rest, l = a :: b :: c :: d :: '-' :: f :: g :: h :: rest ∧
    upperOrDigitChar a ∧ upperOrDigitChar b ∧ digitChar c ∧ digitChar d ∧
    upperOrDigitChar f ∧ upperOrDigitChar g ∧ upperOrDigitChar h

/-- Spec-side reading of the ticket-number convention on a string. -/
def ticketNumberStartStr (s : String) : Prop := ticketNumberStart s.data

/-- Association-list fixture standing for a concrete testsuite: identity
naming function, two registered drivers. -/
def sampleSuite : Testsuite Nat :=
  ⟨fun dirpath => dirpath, [("shell_script", 0), ("python_script", 1)]⟩

theorem tnMatchList_iff (l : List Char) :
    AdaCoreLegacyTestFinder.tnMatchList l = true ↔ ticketNumberStart l := by
  constructor
  · intro hm
    rcases l with _ | ⟨a, _ | ⟨b, _ | ⟨c, _ | ⟨d, _ | ⟨e, _ | ⟨f, _ | ⟨g, _ | ⟨h, rest⟩⟩⟩⟩⟩⟩⟩⟩ <;>
      try exact absurd hm Bool.false_ne_true
    simp only [AdaCoreLegacyTestFinder.tnMatchList, Bool.and_eq_true, beq_iff_eq,
      AdaCoreLegacyTestFinder.tnClass, AdaCoreLegacyTestFinder.digitClass,
      decide_eq_true_eq] at hm
    refine ⟨a, b, c, d, f, g, h, rest, ?_, ?_, ?_, ?_, ?_, ?_, ?_, ?_⟩ <;>
      simp_all [upperOrDigitChar, digitChar]
  · rintro ⟨a, b, c, d, f, g, h, rest, hl, ha, hb, hc, hd, hf, hg, hh⟩
    subst hl
    simp [AdaCoreLegacyTestFinder.tnMatchList, AdaCoreLegacyTestFinder.tnClass,
      AdaCoreLegacyTestFinder.digitClass, upperOrDigitChar, digitChar] at ha hb hc hd hf hg hh ⊢
    simp [ha, hb, hc, hd, hf, hg, hh]

theorem tnMatch_iff (s : String) :
    AdaCoreLegacyTestFinder.tnMatch s = true ↔ ticketNumberStartStr s :=
  tnMatchList_iff s.data

/-- C1: when `"test.yaml"` is not among `filenames`, `YAMLTestFinder.probe`
declines (`None`) regardless of `dirpath`, `dirnames`, the other file names,
and whatever the YAML loader would have produced — the loader outcome is
universally quantified, so no YAML load and no driver lookup influence the
result. -/
theorem yaml_probe_declines_without_marker {δ : Type} (testsuite : Testsuite δ)
    (dirpath : String) (dirnames filenames : List String)
    (load_with_config : Except YamlError YVal)
    (habs : "test.yaml" ∉ filenames) :
    YAMLTestFinder.probe testsuite dirpath dirnames filenames load_with_config =
      ProbeResult.declined := by
  unfold YAMLTestFinder.probe
  rw [if_pos habs]

theorem yaml_probe_declines_without_marker_witness :
    "test.yaml" ∉ ["foo.txt", "bar.adb"] ∧
      YAMLTestFinder.probe sampleSuite "tests/t1" [] ["foo.txt", "bar.adb"]
          (Except.error ⟨⟩) =
        ProbeResult.declined :=
  ⟨by decide,
   yaml_probe_declines_without_marker sampleSuite "tests/t1" [] ["foo.txt", "bar.adb"]
     (Except.error ⟨⟩) (by decide)⟩

/-- C2: when `"test.yaml"` is among `filenames` and the loader fails with its
structured `YamlError`, `probe` raises `ProbingError` with message exactly
`"invalid syntax for test.yaml"`; the loader's native error type never reaches
the caller (the result type carries only `ProbingError`). -/
theorem yaml_probe_invalid_syntax {δ : Type} (testsuite : Testsuite δ)
    (dirpath : String) (dirnames filenames : List String) (e : YamlError)
    (hmem : "test.yaml" ∈ filenames) :
    YAMLTestFinder.probe testsuite dirpath dirnames filenames (Except.error e) =
      ProbeResult.error ⟨"invalid syntax for test.yaml"⟩ := by
  unfold YAMLTestFinder.probe
  rw [if_neg (by simpa using hmem)]

theorem yaml_probe_invalid_syntax_witness :
    "test.yaml" ∈ ["test.yaml"] ∧
      YAMLTestFinder.probe sampleSuite "tests/t1" [] ["test.yaml"] (Except.error ⟨⟩) =
        ProbeResult.error ⟨"invalid syntax for test.yaml"⟩ :=
  ⟨by decide,
   yaml_probe_invalid_syntax sampleSuite "tests/t1" [] ["test.yaml"] ⟨⟩ (by decide)⟩

/-- C3: when `"test.yaml"` is among `filenames` and the loaded value is
neither `None` nor mapping-shaped (a scalar, a string, or a sequence at the
root), `probe` raises `ProbingError` with message exactly
`"invalid format for test.yaml"`. -/
theorem yaml_probe_invalid_format {δ : Type} (testsuite : Testsuite δ)
    (dirpath : String) (dirnames filenames : List String) (loaded : YVal)
    (hmem : "test.yaml" ∈ filenames)
    (hnotnull : loaded ≠ YVal.ynull)
    (hnotmap : ∀ entries, loaded ≠ YVal.ymap entries) :
    YAMLTestFinder.probe testsuite dirpath dirnames filenames (Except.ok loaded) =
      ProbeResult.error ⟨"invalid format for test.yaml"⟩ := by
  unfold YAMLTestFinder.probe
  rw [if_neg (by simpa using hmem)]
  cases loaded with
  | ynull => exact absurd rfl hnotnull
  | ymap entries => exact absurd rfl (hnotmap entries)
  | ystr s => rfl
  | yscalar s => rfl
  | yseq items => rfl

theorem yaml_probe_invalid_format_witness :
    "test.yaml" ∈ ["test.yaml"] ∧
    YVal.yseq [] ≠ YVal.ynull ∧
    (∀ entries, YVal.yseq [] ≠ YVal.ymap entries) ∧
      YAMLTestFinder.probe sampleSuite "tests/t1" [] ["test.yaml"]
          (Except.ok (YVal.yseq [])) =
        ProbeResult.error ⟨"invalid format for test.yaml"⟩ :=
  ⟨by decide, fun h => YVal.noConfusion h, fun _ h => YVal.noConfusion h,
   yaml_probe_invalid_format sampleSuite "tests/t1" [] ["test.yaml"] (YVal.yseq [])
     (by decide) (fun h => YVal.noConfusion h) (fun _ h => YVal.noConfusion h)⟩

/-- C4: when the loaded mapping carries a `driver` key whose value is a string
absent from `testsuite.test_driver_map`, `probe` raises `ProbingError` with
message exactly `"cannot find driver"`; the registry's `KeyError` is never
leaked (the result type carries only `ProbingError`). -/
theorem yaml_probe_unknown_driver {δ : Type} (testsuite : Testsuite δ)
    (dirpath : String) (dirnames filenames : List String)
    (entries : List (String × YVal)) (s : String)
    (hmem : "test.yaml" ∈ filenames)
    (hdriver : dict_get entries "driver" = YVal.ystr s)
    (habsent : testsuite.test_driver_map.lookup s = none) :
    YAMLTestFinder.probe testsuite dirpath dirnames filenames
        (Except.ok (YVal.ymap entries)) =
      ProbeResult.error ⟨"cannot find driver"⟩ := by
  unfold YAMLTestFinder.probe
  rw [if_neg (by simpa using hmem)]
  show YAMLTestFinder.probeEnv testsuite (testsuite.test_name dirpath) dirpath entries = _
  unfold YAMLTestFinder.probeEnv
  rw [hdriver]
  simp [driverLookup, habsent]

theorem yaml_probe_unknown_driver_witness :
    "test.yaml" ∈ ["test.yaml"] ∧
    dict_get [("driver", YVal.ystr "tcl_script")] "driver" = YVal.ystr "tcl_script" ∧
    sampleSuite.test_driver_map.lookup "tcl_script" = none ∧
      YAMLTestFinder.probe sampleSuite "tests/t1" [] ["test.yaml"]
          (Except.ok (YVal.ymap [("driver", YVal.ystr "tcl_script")])) =
        ProbeResult.error ⟨"cannot find driver"⟩ :=
  ⟨by decide, rfl, rfl,
   yaml_probe_unknown_driver sampleSuite "tests/t1" [] ["test.yaml"]
     [("driver", YVal.ystr "tcl_script")] "tcl_script" (by decide) rfl rfl⟩

/-- C5: when `"test.yaml"` is among `filenames` and the loader yields `None`
(an empty or comment-only file), `probe` returns a single `ParsedTest` whose
`test_env` is the empty mapping and whose `driver_cls` is `None`. -/
theorem yaml_probe_empty_file {δ : Type} (testsuite : Testsuite δ)
    (dirpath : String) (dirnames filenames : List String)
    (hmem : "test.yaml" ∈ filenames) :
    YAMLTestFinder.probe testsuite dirpath dirnames filenames (Except.ok YVal.ynull) =
      ProbeResult.found ⟨testsuite.test_name dirpath, none, [], dirpath, none⟩ := by
  unfold YAMLTestFinder.probe
  rw [if_neg (by simpa using hmem)]
  rfl

theorem yaml_probe_empty_file_witness :
    "test.yaml" ∈ ["test.yaml"] ∧
      YAMLTestFinder.probe sampleSuite "tests/t1" [] ["test.yaml"] (Except.ok YVal.ynull) =
        ProbeResult.found ⟨sampleSuite.test_name "tests/t1", none, [], "tests/t1", none⟩ :=
  ⟨by decide, yaml_probe_empty_file sampleSuite "tests/t1" [] ["test.yaml"] (by decide)⟩

/-- C6: when the loaded mapping carries a `driver` key whose string value is
registered in `testsuite.test_driver_map`, `probe` returns a single
`ParsedTest` whose `driver_cls` is the registered driver, whose `test_env` is
the loaded mapping verbatim (every key included), whose `test_name` is
`testsuite.test_name dirpath`, whose `test_dir` is `dirpath`, and whose
`test_matcher` is left unset (`None`). -/
theorem yaml_probe_known_driver {δ : Type} (testsuite : Testsuite δ)
    (dirpath : String) (dirnames filenames : List String)
    (entries : List (String × YVal)) (s : String) (cls : δ)
    (hmem : "test.yaml" ∈ filenames)
    (hdriver : dict_get entries "driver" = YVal.ystr s)
    (hfound : testsuite.test_driver_map.lookup s = some cls) :
    YAMLTestFinder.probe testsuite dirpath dirnames filenames
        (Except.ok (YVal.ymap entries)) =
      ProbeResult.found
        ⟨testsuite.test_name dirpath, some cls, entries, dirpath, none⟩ := by
  unfold YAMLTestFinder.probe
  rw [if_neg (by simpa using hmem)]
  show YAMLTestFinder.probeEnv testsuite (testsuite.test_name dirpath) dirpath entries = _
  unfold YAMLTestFinder.probeEnv
  rw [hdriver]
  simp [driverLookup, hfound]

theorem yaml_probe_known_driver_witness :
    "test.yaml" ∈ ["test.yaml"] ∧
    dict_get [("driver", YVal.ystr "shell_script"), ("timeout", YVal.yscalar "10")]
      "driver" = YVal.ystr "shell_script" ∧
    sampleSuite.test_driver_map.lookup "shell_script" = some 0 ∧
      YAMLTestFinder.probe sampleSuite "tests/t1" [] ["test.yaml"]
          (Except.ok (YVal.ymap
            [("driver", YVal.ystr "shell_script"), ("timeout", YVal.yscalar "10")])) =
        ProbeResult.found
          ⟨sampleSuite.test_name "tests/t1", some 0,
           [("driver", YVal.ystr "shell_script"), ("timeout", YVal.yscalar "10")],
           "tests/t1", none⟩ :=
  ⟨by decide, rfl, rfl,
   yaml_probe_known_driver sampleSuite "tests/t1" [] ["test.yaml"]
     [("driver", YVal.ystr "shell_script"), ("timeout", YVal.yscalar "10")]
     "shell_script" 0 (by decide) rfl rfl⟩

/-- C10: when the loaded mapping carries a `driver` key explicitly bound to
`null`, `probe` behaves exactly as if the key were absent: no registry lookup
happens (the registry is universally quantified and unused), no `ProbingError`
is raised, and the returned `ParsedTest.driver_cls` is `None`. -/
theorem yaml_probe_null_driver {δ : Type} (testsuite : Testsuite δ)
    (dirpath : String) (dirnames filenames : List String)
    (entries : List (String × YVal))
    (hmem : "test.yaml" ∈ filenames)
    (hnull : entries.lookup "driver" = some YVal.ynull) :
    YAMLTestFinder.probe testsuite dirpath dirnames filenames
        (Except.ok (YVal.ymap entries)) =
      ProbeResult.found
        ⟨testsuite.test_name dirpath, none, entries, dirpath, none⟩ := by
  unfold YAMLTestFinder.probe
  rw [if_neg (by simpa using hmem)]
  show YAMLTestFinder.probeEnv testsuite (testsuite.test_name dirpath) dirpath entries = _
  unfold YAMLTestFinder.probeEnv
  rw [show dict_get entries "driver" = YVal.ynull by simp [dict_get, hnull]]

theorem yaml_probe_null_driver_witness :
    "test.yaml" ∈ ["test.yaml"] ∧
    [("driver", YVal.ynull), ("opt", YVal.ystr "x")].lookup "driver" =
      some YVal.ynull ∧
      YAMLTestFinder.probe sampleSuite "tests/t1" [] ["test.yaml"]
          (Except.ok (YVal.ymap [("driver", YVal.ynull), ("opt", YVal.ystr "x")])) =
        ProbeResult.found
          ⟨sampleSuite.test_name "tests/t1", none,
           [("driver", YVal.ynull), ("opt", YVal.ystr "x")], "tests/t1", none⟩ :=
  ⟨by decide, rfl,
   yaml_probe_null_driver sampleSuite "tests/t1" [] ["test.yaml"]
     [("driver", YVal.ynull), ("opt", YVal.ystr "x")] (by decide) rfl⟩

/-- C7: `AdaCoreLegacyTestFinder.probe` returns a single `ParsedTest` with
`test_name` the full base name of `dirpath`, `driver_cls` the finder's fixed
driver class, `test_env` the empty mapping, and `test_dir` equal to `dirpath`
exactly when the base name starts with a ticket number (two
uppercase-letter-or-digit characters, two digits, a hyphen, three
uppercase-letter-or-digit characters — trailing characters tolerated), and
declines otherwise. -/
theorem adacore_probe_characterization {δ : Type} (driver_cls : δ)
    (testsuite : Testsuite δ) (dirpath : String) (dirnames filenames : List String) :
    (AdaCoreLegacyTestFinder.probe driver_cls testsuite dirpath dirnames filenames =
        ProbeResult.found
          ⟨AdaCoreLegacyTestFinder.basename dirpath, some driver_cls, [], dirpath, none⟩ ↔
      ticketNumberStartStr (AdaCoreLegacyTestFinder.basename dirpath)) ∧
    (AdaCoreLegacyTestFinder.probe driver_cls testsuite dirpath dirnames filenames =
        ProbeResult.declined ↔
      ¬ ticketNumberStartStr (AdaCoreLegacyTestFinder.basename dirpath)) := by
  have h := tnMatch_iff (AdaCoreLegacyTestFinder.basename dirpath)
  unfold AdaCoreLegacyTestFinder.probe
  cases hm : AdaCoreLegacyTestFinder.tnMatch (AdaCoreLegacyTestFinder.basename dirpath) <;>
    rw [hm] at h <;> simp_all

/-- C8: `AdaCoreLegacyTestFinder.probe` never raises `ProbingError`: on every
input it either declines or returns a single `ParsedTest` (in particular it
never returns a list and never errors). -/
theorem adacore_probe_never_errors {δ : Type} (driver_cls : δ)
    (testsuite : Testsuite δ) (dirpath : String) (dirnames filenames : List String) :
    AdaCoreLegacyTestFinder.probe driver_cls testsuite dirpath dirnames filenames =
        ProbeResult.declined ∨
      ∃ t, AdaCoreLegacyTestFinder.probe driver_cls testsuite dirpath dirnames filenames =
        ProbeResult.found t := by
  unfold AdaCoreLegacyTestFinder.probe
  cases hm : AdaCoreLegacyTestFinder.tnMatch (AdaCoreLegacyTestFinder.basename dirpath) <;>
    simp [hm]

/-- C9: constructing a `ParsedTest` and reading back each of the five fields
returns exactly the values passed at construction, with no normalization. -/
theorem parsedTest_roundtrip {δ : Type} (test_name : String) (driver_cls : Option δ)
    (test_env : List (String × YVal)) (test_dir : String)
    (test_matcher : Option String) :
    (ParsedTest.mk test_name driver_cls test_env test_dir test_matcher).test_name =
        test_name ∧
      (ParsedTest.mk test_name driver_cls test_env test_dir test_matcher).driver_cls =
        driver_cls ∧
      (ParsedTest.mk test_name driver_cls test_env test_dir test_matcher).test_env =
        test_env ∧
      (ParsedTest.mk test_name driver_cls test_env test_dir test_matcher).test_dir =
        test_dir ∧
      (ParsedTest.mk test_name driver_cls test_env test_dir test_matcher).test_matcher =
        test_matcher :=
  ⟨rfl, rfl, rfl, rfl, rfl⟩
